import Mathlib

/-!
Verification of the task-scoring and alerting subsystem of the crm-ju-ai
backend (`backend/app/services/task_service.py`,
`backend/app/services/base_sql_service.py`,
`backend/app/api/endpoints/tasks.py`, `backend/app/models/schemas.py`,
`backend/app/models/db_models.py`), shallowly embedded in Lean.

Conventions of the embedding:
* Python `datetime` values are instants measured in whole microseconds since
  the epoch (CPython datetimes have microsecond resolution), together with a
  timezone-awareness flag; for a naive datetime the instant is the value of
  its fields read as UTC, which is exactly the instant that
  `replace(tzinfo=timezone.utc)` assigns to it.
* The Python float multipliers `0.8, 1.0, 1.3, 1.5` are exact decimal
  tenths and are modelled as integer tenths.  For every product the code
  can form (the ten base values and the default 25 against the four
  multipliers and the default 1.0) the IEEE-754 double product truncates
  under `int()` to the same integer as the exact decimal product, so the
  integer model computes exactly the values the Python code computes
  (checked value by value; the exact products are 16, 20, 24, 25, 26, 30,
  32, 32.5, 37.5, 39, 40, 45, 48, 50, 52, 56, 60, 64, 65, 70, 72, 75, 78,
  80, 90, 91, 100, 104, 105, 117, 120, 130, 135, 150).
* The database session is a list of task rows; SQLAlchemy operations become
  pure list operations (find / replace-first / erase-first / append).
-/

namespace CrmJuAi

/-- Task categories: `TaskType` in `app/models/schemas.py` (a `str` enum;
`val` is the enum member's string value). -/
inductive TaskType
  | audiencia
  | peticao
  | prazo_fatal
  | prazo_comum
  | reuniao
  | diligencia
  | analise
  | contato_cliente
  | administrativo
  | outro
deriving DecidableEq, Fintype, Repr

/-- String value of a `TaskType` member (it is a Python `str` enum, so the
member compares and hashes equal to this string). -/
def TaskType.val : TaskType → String
  | .audiencia => "audiencia"
  | .peticao => "peticao"
  | .prazo_fatal => "prazo_fatal"
  | .prazo_comum => "prazo_comum"
  | .reuniao => "reuniao"
  | .diligencia => "diligencia"
  | .analise => "analise"
  | .contato_cliente => "contato_cliente"
  | .administrativo => "administrativo"
  | .outro => "outro"

/-- Priority levels: `TaskPriority` in `app/models/schemas.py`. -/
inductive TaskPriority
  | baixa
  | media
  | alta
  | urgente
deriving DecidableEq, Fintype, Repr

/-- String value of a `TaskPriority` member. -/
def TaskPriority.val : TaskPriority → String
  | .baixa => "baixa"
  | .media => "media"
  | .alta => "alta"
  | .urgente => "urgente"

/-- Task statuses: `TaskStatus` / `TaskStatusEnum`. -/
inductive TaskStatus
  | pendente
  | em_andamento
  | concluida
  | cancelada
deriving DecidableEq, Fintype, Repr

/-- `TaskService.TASK_SCORES` (`task_service.py` lines 43-54).  The Python
dict is keyed by `TaskType` members; since `TaskType` is a `str` enum, a
lookup succeeds exactly when the key's string value is one of these ten
strings, so the table is modelled keyed by the string values. -/
def TASK_SCORES : List (String × Int) :=
  [("audiencia", 100),
   ("peticao", 80),
   ("prazo_fatal", 90),
   ("prazo_comum", 50),
   ("reuniao", 40),
   ("diligencia", 60),
   ("analise", 70),
   ("contato_cliente", 30),
   ("administrativo", 20),
   ("outro", 25)]

/-- `TaskService.PRIORITY_MULTIPLIERS` (`task_service.py` lines 56-62).
The Python float literals `0.8, 1.0, 1.3, 1.5` are exact decimal tenths;
each is stored here as its number of tenths (`8, 10, 13, 15`), and
`calculate_score` divides the product by ten.  This integer encoding
computes exactly what the Python float computation does: for every base
value the code can pick (the ten table values and the default `25`) and
every multiplier (the four table values and the default `1.0`), the
IEEE-754 double product truncates with `int()` to the same integer as the
exact decimal product, checked value by value (see the header comment). -/
def PRIORITY_MULTIPLIERS : List (String × Int) :=
  [("baixa", 8),
   ("media", 10),
   ("alta", 13),
   ("urgente", 15)]

/-- `TaskService._calculate_score` (`task_service.py` lines 64-68):
`base_score = TASK_SCORES.get(task_type, 25)`,
`multiplier = PRIORITY_MULTIPLIERS.get(priority, 1.0)`,
`return int(base_score * multiplier)`.  Python `int()` truncates toward
zero, hence `Int.tdiv`; the multiplier encoding in tenths is explained on
`PRIORITY_MULTIPLIERS`.  A pure function: determinism of the claim is
definitional here. -/
def calculate_score (task_type priority : String) : Int :=
  let base_score := (TASK_SCORES.lookup task_type).getD 25
  let multiplierTenths := (PRIORITY_MULTIPLIERS.lookup priority).getD 10
  Int.tdiv (base_score * multiplierTenths) 10

/-- Microseconds per day: the divisor behind `timedelta.days`. -/
def usPerDay : Int := 86400000000

/-- A Python `datetime`: `instant` is the time it denotes in microseconds
since the epoch (for a naive value, its fields read as UTC), `tzAware`
says whether `tzinfo` is present.  `replace(tzinfo=timezone.utc)` on a
naive value sets `tzAware` and keeps `instant`. -/
structure PyDateTime where
  instant : Int
  tzAware : Bool
deriving DecidableEq, Repr

/-- `TaskService._get_alert_level` (`task_service.py` lines 70-101) with the
ambient `datetime.now(timezone.utc)` passed explicitly as `now`.  A naive
`due_date` gets `replace(tzinfo=timezone.utc)`; `(due_date - now).days` is
the floor of the difference in whole days (Python `timedelta.days`
normalizes with `0 <= seconds < 86400`), hence `Int.fdiv`.  The function is
total: it never raises, on naive inputs included. -/
def get_alert_level (due_date : PyDateTime) (now : Int) : String :=
  let due := if due_date.tzAware then due_date else { due_date with tzAware := true }
  let diff := Int.fdiv (due.instant - now) usPerDay
  if diff < 0 then "overdue"
  else if diff = 0 then "fatal"
  else if diff = 1 then "critical"
  else if diff ≤ 3 then "warning"
  else if diff ≤ 7 then "attention"
  else "normal"

/-- A row of the `tasks` table (`Task` in `app/models/db_models.py` lines
344-376).  `created_at`/`updated_at` are bookkeeping timestamps no claim
mentions and are omitted.  `due_date` and `completed_at` are
timezone-aware database timestamps; `completed_at` is only ever written
with the aware `datetime.now(timezone.utc)`, so a bare instant suffices
for it. -/
structure DBTask where
  id : String
  user_id : String
  title : String
  description : Option String
  task_type : TaskType
  priority : TaskPriority
  status : TaskStatus
  case_id : Option String
  client_id : Option String
  due_date : Option PyDateTime
  completed_at : Option Int
  score : Int
  completed_by : Option String
  alert_level : String
  tags : List String
  notes : Option String
deriving DecidableEq, Repr

/-- `TaskCreate` (`app/models/schemas.py` lines 419-449) restricted to the
fields that are also columns of the database model, with the Pydantic
defaults materialized (for an unset field, `exclude_unset` omission plus
the column default produces the same stored value as the Pydantic
default, so materializing is behaviour-preserving).  `assigned_to`,
`location`, `process_number` are schema fields without a database column
and are omitted. -/
structure TaskCreate where
  title : String
  description : Option String := none
  task_type : TaskType
  priority : TaskPriority := .media
  status : TaskStatus := .pendente
  due_date : Option PyDateTime := none
  case_id : Option String := none
  client_id : Option String := none
  notes : Option String := none
  tags : List String := []
deriving DecidableEq, Repr

/-- `TaskUpdate` (`app/models/schemas.py` lines 451-465) under
`model_dump(exclude_unset=True)`: an outer `none` means the field was not
supplied and is left untouched; `some v` means the field was supplied
with value `v`.  For columns that are nullable in the database the
supplied value is itself an `Option`.  Non-nullable columns (`title`,
`task_type`, `priority`, `status`, `tags`) are modelled as supplied with a
proper value: supplying an explicit null there would violate the
column's constraint and abort the update at commit.  `assigned_to`,
`location`, `process_number` have no column, fail the `hasattr` guard in
`BaseSQLService.update`, and are skipped, so they are omitted here. -/
structure TaskUpdate where
  title : Option String := none
  description : Option (Option String) := none
  task_type : Option TaskType := none
  priority : Option TaskPriority := none
  status : Option TaskStatus := none
  due_date : Option (Option PyDateTime) := none
  case_id : Option (Option String) := none
  client_id : Option (Option String) := none
  notes : Option (Option String) := none
  tags : Option (List String) := none
deriving DecidableEq, Repr

/-- The field loop of `BaseSQLService.update` (`base_sql_service.py` lines
276-291): `setattr` for each supplied field.  No `TaskUpdate` field maps
to `id`, `user_id`, `score`, `alert_level`, `completed_at` or
`completed_by`, so those columns are never touched — in particular a
change of `task_type` or `priority` does not recompute `score`, and a
change of `due_date` does not recompute `alert_level`. -/
def applyUpdate (d : TaskUpdate) (t : DBTask) : DBTask :=
  { t with
    title := d.title.getD t.title
    description := d.description.getD t.description
    task_type := d.task_type.getD t.task_type
    priority := d.priority.getD t.priority
    status := d.status.getD t.status
    due_date := d.due_date.getD t.due_date
    case_id := d.case_id.getD t.case_id
    client_id := d.client_id.getD t.client_id
    notes := d.notes.getD t.notes
    tags := d.tags.getD t.tags }

/-- The visible rows of the `tasks` table. -/
abbrev Store := List DBTask

/-- The `WHERE id = :id AND user_id = :user_id` condition used by
`BaseSQLService.get`. -/
def ownerMatch (id u : String) (t : DBTask) : Bool :=
  t.id == id && t.user_id == u

/-- `BaseSQLService.get` (`base_sql_service.py` lines 94-121):
select by id and owner, `scalar_one_or_none`. -/
def getOp (s : Store) (id u : String) : Option DBTask :=
  s.find? (ownerMatch id u)

/-- Apply `f` to the first row satisfying `p`, leaving the rest unchanged:
how an ORM update to the row found by `get` acts on the table. -/
def replaceFirst (p : DBTask → Bool) (f : DBTask → DBTask) : Store → Store
  | [] => []
  | x :: xs => if p x then f x :: xs else x :: replaceFirst p f xs

/-- `BaseSQLService.update` (`base_sql_service.py` lines 251-306): fetch by
id and owner; if absent return `None` with the table unchanged, else apply
the supplied fields to that row and return it. -/
def updateOp (s : Store) (id : String) (d : TaskUpdate) (u : String) :
    Option DBTask × Store :=
  match getOp s id u with
  | none => (none, s)
  | some t => (some (applyUpdate d t), replaceFirst (ownerMatch id u) (applyUpdate d) s)

/-- `BaseSQLService.delete` (`base_sql_service.py` lines 308-337): fetch by
id and owner; if absent return `False` with the table unchanged, else
hard-delete that row and return `True`. -/
def deleteOp (s : Store) (id u : String) : Bool × Store :=
  match getOp s id u with
  | none => (false, s)
  | some _ => (true, s.eraseP (ownerMatch id u))

/-- Python `completed_by or user_id`: `or` takes the right operand when the
left is falsy, and the falsy strings are `None` and `""`. -/
def pyOrDefault (v : Option String) (dflt : String) : String :=
  match v with
  | some s => if s = "" then dflt else s
  | none => dflt

/-- `TaskService.complete_task` (`task_service.py` lines 140-181): fetch by
id and owner; if absent return `None`, else set `status = CONCLUIDA`,
`completed_at = datetime.now(timezone.utc)` (passed here as `now`),
`completed_by = completed_by or user_id`, and commit. -/
def complete_task (s : Store) (task_id u : String) (completed_by : Option String)
    (now : Int) : Option DBTask × Store :=
  match getOp s task_id u with
  | none => (none, s)
  | some t =>
    let f : DBTask → DBTask := fun x =>
      { x with
        status := .concluida
        completed_at := some now
        completed_by := some (pyOrDefault completed_by u) }
    (some (f t), replaceFirst (ownerMatch task_id u) f s)

/-- `TaskService.create` (`task_service.py` lines 103-138) over
`BaseSQLService.create` (lines 49-92): compute `score` from type and
priority, compute the initial `alert_level` from `due_date` when present
(`"normal"` otherwise — a `datetime` is always truthy, so `if
data.due_date` is a `None` test), and insert a row with `completed_at`
and `completed_by` left at their `NULL` column defaults. -/
def createTask (data : TaskCreate) (u : String) (now : Int) (newId : String) : DBTask :=
  let score := calculate_score data.task_type.val data.priority.val
  let alert_level :=
    match data.due_date with
    | some d => get_alert_level d now
    | none => "normal"
  { id := newId
    user_id := u
    title := data.title
    description := data.description
    task_type := data.task_type
    priority := data.priority
    status := data.status
    case_id := data.case_id
    client_id := data.client_id
    due_date := data.due_date
    completed_at := none
    score := score
    completed_by := none
    alert_level := alert_level
    tags := data.tags
    notes := data.notes }

/-- `TaskService.create` as a table operation: the new row is appended. -/
def createOp (s : Store) (data : TaskCreate) (u : String) (now : Int)
    (newId : String) : DBTask × Store :=
  let t := createTask data u now newId
  (t, s ++ [t])

/-- One entry of the ranking returned by `GET /tasks/taskscore/ranking`
(field names as documented on the endpoint: `user_id`, `total_score`,
`tasks_completed`, `tasks_by_type`, `rank`). -/
structure RankEntry where
  user_id : String
  total_score : Int
  tasks_completed : Nat
  tasks_by_type : List (String × Nat)
  rank : Nat
deriving DecidableEq, Repr

/-- Membership of a completion instant in the optional
`start_date`/`end_date` window. -/
def inWindow (sd ed : Option Int) (c : Int) : Bool :=
  (match sd with
   | some a => decide (a ≤ c)
   | none => true) &&
  (match ed with
   | some b => decide (c ≤ b)
   | none => true)

/-- A task counted by the ranking: status completed and `completed_at`
inside the window (a task with no `completed_at` has no completion
falling in any window). -/
def countsForRanking (sd ed : Option Int) (t : DBTask) : Bool :=
  t.status == TaskStatus.concluida &&
  (match t.completed_at with
   | some c => inWindow sd ed c
   | none => false)

/-- Per-category tally of a group of tasks, categories in order of first
appearance. -/
def tasksByType (ts : List DBTask) : List (String × Nat) :=
  (ts.map (fun t => t.task_type.val)).dedup.map
    (fun ty => (ty, (ts.filter (fun t => t.task_type.val == ty)).length))

/-- The ranking entry of completer `k`: their counted tasks, total score,
count, per-category tally; `rank` is assigned afterwards. -/
def entryFor (els : List DBTask) (k : String) : RankEntry :=
  let mine := els.filter (fun t => t.completed_by == some k)
  { user_id := k
    total_score := (mine.map (fun t => t.score)).sum
    tasks_completed := mine.length
    tasks_by_type := tasksByType mine
    rank := 0 }

/-- Non-increasing order on total score. -/
def scoreRel (a b : RankEntry) : Prop := b.total_score ≤ a.total_score

instance : DecidableRel scoreRel := fun a b => Int.decLe b.total_score a.total_score

instance : IsTotal RankEntry scoreRel := ⟨fun a b => le_total b.total_score a.total_score⟩

instance : IsTrans RankEntry scoreRel := ⟨fun _ _ _ h1 h2 => le_trans h2 h1⟩

/-- `rank := i`, `i+1`, ... down the sorted list: 1-based position. -/
def assignRanks : Nat → List RankEntry → List RankEntry
  | _, [] => []
  | i, e :: es => { e with rank := i } :: assignRanks (i + 1) es

/-- Modelled from the spec: `TaskService.get_taskscore_ranking` is invoked
by the `GET /tasks/taskscore/ranking` and `GET /tasks/taskscore/my-score`
endpoints (`api/endpoints/tasks.py` lines 215-289) but its implementation
is not among the source files.  Following spec §4.3: filter the completed
tasks whose `completed_at` falls in the optional window, group by
`completed_by` (groups in order of first appearance; a completed task
always has a completer recorded, tasks without one contribute no group),
sum `score` and count tasks and tally categories per group, sort by
`total_score` descending (a stable insertion sort: ties keep the order
encountered), and assign `rank` as the 1-based position in sorted
order. -/
def get_taskscore_ranking (tasks : List DBTask) (sd ed : Option Int) :
    List RankEntry :=
  let els := tasks.filter (countsForRanking sd ed)
  let keys := (els.filterMap (fun t => t.completed_by)).dedup
  let entries := keys.map (entryFor els)
  assignRanks 1 (List.insertionSort scoreRel entries)

/-- `get_my_taskscore` (`api/endpoints/tasks.py` lines 252-289): compute the
ranking and take the current user's entry via `next(...)`, falling back to
a zero-valued placeholder with `rank = len(ranking) + 1` when the user has
no entry. -/
def get_my_taskscore (tasks : List DBTask) (uid : String) (sd ed : Option Int) :
    RankEntry :=
  let ranking := get_taskscore_ranking tasks sd ed
  match ranking.find? (fun e => e.user_id == uid) with
  | some e => e
  | none =>
    { user_id := uid
      total_score := 0
      tasks_completed := 0
      tasks_by_type := []
      rank := ranking.length + 1 }

/-- The rows of the table belonging to user `u` (the `WHERE user_id = :u`
projection every service query applies), in stored order. -/
def proj (u : String) (s : Store) : Store :=
  s.filter (fun t => t.user_id == u)

/-- The spec's base-points table (§4.1), written from the spec's words for
comparison with the code's `TASK_SCORES`. -/
def specBasePoints : TaskType → Int
  | .audiencia => 100
  | .prazo_fatal => 90
  | .peticao => 80
  | .analise => 70
  | .diligencia => 60
  | .prazo_comum => 50
  | .reuniao => 40
  | .contato_cliente => 30
  | .outro => 25
  | .administrativo => 20

/-- The spec's priority-multiplier table (§4.1), written from the spec's
words, the decimal literals read as exact rationals. -/
def specPriorityMultiplier : TaskPriority → Rat
  | .baixa => 0.8
  | .media => 1.0
  | .alta => 1.3
  | .urgente => 1.5

/-! ### Shared lemmas -/

theorem lookup_eq_none_of_not_mem {α β : Type} [BEq α] [LawfulBEq α]
    (l : List (α × β)) (k : α) (h : k ∉ l.map Prod.fst) : l.lookup k = none := by
  induction l with
  | nil => rfl
  | cons x xs ih =>
    obtain ⟨x1, x2⟩ := x
    have h1 : (k == x1) = false :=
      beq_eq_false_iff_ne.mpr (fun hk => h (by simp [hk]))
    have h2 : k ∉ xs.map Prod.fst := fun hm => h (by simp [hm])
    simp [List.lookup, h1, ih h2]

theorem replaceFirst_map_eq {β : Type} (p : DBTask → Bool) (f : DBTask → DBTask)
    (g : DBTask → β) (hg : ∀ x, g (f x) = g x) (s : Store) :
    (replaceFirst p f s).map g = s.map g := by
  induction s with
  | nil => rfl
  | cons x xs ih => by_cases hp : p x <;> simp [replaceFirst, hp, hg, ih]

theorem find?_filter_of_imp (p q : DBTask → Bool) (h : ∀ x, p x = true → q x = true)
    (s : Store) : (s.filter q).find? p = s.find? p := by
  induction s with
  | nil => rfl
  | cons x xs ih =>
    by_cases hq : q x = true
    · by_cases hp : p x = true <;> simp [List.filter_cons, List.find?, hq, hp, ih]
    · have hp : p x = false := by
        cases hpx : p x with
        | false => rfl
        | true => exact absurd (h x hpx) hq
      simp [List.filter_cons, List.find?, hq, hp, ih]

theorem filter_replaceFirst_comm (p : DBTask → Bool) (f : DBTask → DBTask)
    (q : DBTask → Bool) (hpq : ∀ x, p x = true → q x = true)
    (hf : ∀ x, q (f x) = q x) (s : Store) :
    (replaceFirst p f s).filter q = replaceFirst p f (s.filter q) := by
  induction s with
  | nil => rfl
  | cons x xs ih =>
    by_cases hp : p x = true
    · have hq : q x = true := hpq x hp
      have hfx : q (f x) = true := by rw [hf]; exact hq
      simp [replaceFirst, hp, hq, hfx, List.filter_cons]
    · by_cases hq : q x = true <;> simp [replaceFirst, hp, hq, List.filter_cons, ih]

theorem filter_eraseP_comm (p q : DBTask → Bool) (hpq : ∀ x, p x = true → q x = true)
    (s : Store) : (s.eraseP p).filter q = (s.filter q).eraseP p := by
  induction s with
  | nil => rfl
  | cons x xs ih =>
    by_cases hp : p x = true
    · have hq : q x = true := hpq x hp
      simp [List.eraseP_cons, hp, hq, List.filter_cons]
    · by_cases hq : q x = true <;> simp [List.eraseP_cons, hp, hq, List.filter_cons, ih]

theorem ownerMatch_imp_user (id u : String) (x : DBTask)
    (h : ownerMatch id u x = true) : (x.user_id == u) = true := by
  simp only [ownerMatch, Bool.and_eq_true] at h
  exact h.2

theorem getOp_proj (s : Store) (id u : String) :
    getOp s id u = (proj u s).find? (ownerMatch id u) :=
  (find?_filter_of_imp _ _ (ownerMatch_imp_user id u) s).symm

theorem proj_replaceFirst (u id : String) (f : DBTask → DBTask)
    (hf : ∀ x, ((f x).user_id == u) = (x.user_id == u)) (s : Store) :
    proj u (replaceFirst (ownerMatch id u) f s) =
      replaceFirst (ownerMatch id u) f (proj u s) :=
  filter_replaceFirst_comm _ f _ (ownerMatch_imp_user id u) hf s

theorem proj_eraseP (u id : String) (s : Store) :
    proj u (s.eraseP (ownerMatch id u)) = (proj u s).eraseP (ownerMatch id u) :=
  filter_eraseP_comm _ _ (ownerMatch_imp_user id u) s

theorem proj_replaceFirst_complete (u id : String) (cb : Option String) (now : Int)
    (s : Store) :
    proj u (replaceFirst (ownerMatch id u)
        (fun x =>
          { x with
            status := .concluida
            completed_at := some now
            completed_by := some (pyOrDefault cb u) }) s) =
      replaceFirst (ownerMatch id u)
        (fun x =>
          { x with
            status := .concluida
            completed_at := some now
            completed_by := some (pyOrDefault cb u) }) (proj u s) := by
  apply proj_replaceFirst
  intro x
  rfl

/-! ### C1 -/

/-- C1 counterexample: the claim says the Score Calculator returns
`round(base_points[category] * priority_multiplier[priority])`, with
`outro` base 25 and `urgente` multiplier 1.5.  The code truncates with
`int()`: at (outro, urgente) it returns 37 while the rounded exact product
is 38 (under round-half-up and Python's round-half-to-even alike, since 38
is even). -/
theorem C1_round_formula_counterexample :
    calculate_score "outro" "urgente" = 37 ∧
    round ((25 : Rat) * 1.5) = 38 ∧ (37 : Int) ≠ 38 :=
  ⟨by decide, by norm_num [round_eq], by decide⟩

/-- C1 (amended): for every valid (category, priority) pair the Score
Calculator returns the floor (= truncation toward zero, the products being
non-negative) of `base_points[category] * priority_multiplier[priority]`
with the claimed tables — not the rounding; the result is non-negative
(determinism is definitional: `calculate_score` is a pure function), and
in particular (audiencia, urgente) yields 150 and (administrativo, baixa)
yields 16. -/
theorem C1_score_is_truncated_product (t : TaskType) (p : TaskPriority) :
    calculate_score t.val p.val = ⌊(specBasePoints t : Rat) * specPriorityMultiplier p⌋ ∧
    0 ≤ calculate_score t.val p.val ∧
    calculate_score "audiencia" "urgente" = 150 ∧
    calculate_score "administrativo" "baixa" = 16 := by
  cases t <;> cases p <;>
    exact ⟨by norm_num [specBasePoints, specPriorityMultiplier]; decide,
           by decide, by decide, by decide⟩

/-! ### C2 -/

/-- C2: the Alert Classifier returns the level determined by
`diff_days = floor((due_date - now) in whole days)`: `overdue` if negative,
`fatal` at 0, `critical` at 1, `warning` on 2..3, `attention` on 4..7,
`normal` above 7; and a task created without a due date gets alert level
`normal`. -/
theorem C2_alert_level_buckets (due : PyDateTime) (now : Int)
    (d : Int) (hd : d = Int.fdiv (due.instant - now) usPerDay) :
    (d < 0 → get_alert_level due now = "overdue") ∧
    (d = 0 → get_alert_level due now = "fatal") ∧
    (d = 1 → get_alert_level due now = "critical") ∧
    (2 ≤ d ∧ d ≤ 3 → get_alert_level due now = "warning") ∧
    (4 ≤ d ∧ d ≤ 7 → get_alert_level due now = "attention") ∧
    (7 < d → get_alert_level due now = "normal") ∧
    (∀ (data : TaskCreate) (u newId : String),
      data.due_date = none → (createTask data u now newId).alert_level = "normal") := by
  have key : get_alert_level due now =
      (if d < 0 then "overdue"
       else if d = 0 then "fatal"
       else if d = 1 then "critical"
       else if d ≤ 3 then "warning"
       else if d ≤ 7 then "attention"
       else "normal") := by
    subst hd
    obtain ⟨i, a⟩ := due
    cases a <;> rfl
  refine ⟨fun h => ?_, fun h => ?_, fun h => ?_, fun h => ?_, fun h => ?_, fun h => ?_,
          fun data u newId h => ?_⟩
  · rw [key, if_pos h]
  · rw [key, if_neg (by omega), if_pos h]
  · rw [key, if_neg (by omega), if_neg (by omega), if_pos h]
  · rw [key, if_neg (by omega), if_neg (by omega), if_neg (by omega), if_pos (by omega)]
  · rw [key, if_neg (by omega), if_neg (by omega), if_neg (by omega), if_neg (by omega),
        if_pos (by omega)]
  · rw [key, if_neg (by omega), if_neg (by omega), if_neg (by omega), if_neg (by omega),
        if_neg (by omega)]
  · simp [createTask, h]

/-- Witness for C2: one day of 86400000000 microseconds ahead is
`critical`, and creating with no due date yields `normal`. -/
theorem C2_alert_level_buckets_witness :
    get_alert_level ⟨86400000000, true⟩ 0 = "critical" ∧
    (createTask { title := "t", task_type := .outro } "u1" 0 "t1").alert_level = "normal" :=
  ⟨(C2_alert_level_buckets ⟨86400000000, true⟩ 0 1 (by decide)).2.2.1 rfl,
   (C2_alert_level_buckets ⟨86400000000, true⟩ 0 1 (by decide)).2.2.2.2.2.2
     { title := "t", task_type := .outro } "u1" "t1" rfl⟩

/-! ### C6 -/

/-- C6: the Score Calculator never fails: a category outside the ten known
values behaves exactly like `outro` (base points 25) and a priority outside
the four known values behaves exactly like `media` (multiplier 1.0); with
both unknown the result is 25. -/
theorem C6_unknown_inputs_default (cat pri : String)
    (hc : cat ∉ TASK_SCORES.map Prod.fst)
    (hp : pri ∉ PRIORITY_MULTIPLIERS.map Prod.fst) :
    (∀ p : TaskPriority, calculate_score cat p.val = calculate_score "outro" p.val) ∧
    (∀ t : TaskType, calculate_score t.val pri = calculate_score t.val "media") ∧
    calculate_score cat pri = 25 := by
  have hc' : TASK_SCORES.lookup cat = none := lookup_eq_none_of_not_mem _ _ hc
  have hp' : PRIORITY_MULTIPLIERS.lookup pri = none := lookup_eq_none_of_not_mem _ _ hp
  have houtro : TASK_SCORES.lookup "outro" = some 25 := by decide
  have hmedia : PRIORITY_MULTIPLIERS.lookup "media" = some 10 := by decide
  refine ⟨fun p => ?_, fun t => ?_, ?_⟩
  · simp only [calculate_score, hc', houtro, Option.getD_none, Option.getD_some]
  · simp only [calculate_score, hp', hmedia, Option.getD_none, Option.getD_some]
  · simp only [calculate_score, hc', hp', Option.getD_none]
    decide

/-- Witness for C6 at the unknown inputs `"despacho"` and `"minima"`. -/
theorem C6_unknown_inputs_default_witness :
    ("despacho" ∉ TASK_SCORES.map Prod.fst) ∧
    ("minima" ∉ PRIORITY_MULTIPLIERS.map Prod.fst) ∧
    calculate_score "despacho" "minima" = 25 :=
  ⟨by decide, by decide,
   (C6_unknown_inputs_default "despacho" "minima" (by decide) (by decide)).2.2⟩

/-! ### C7 -/

/-- C7: a timezone-naive due timestamp is classified exactly like the same
instant tagged as UTC (`replace(tzinfo=timezone.utc)` keeps the fields and
hence the instant); `get_alert_level` is a total function, so
classification never fails on a naive input. -/
theorem C7_naive_treated_as_utc (i now : Int) :
    get_alert_level ⟨i, false⟩ now = get_alert_level ⟨i, true⟩ now := rfl

/-! ### C4 -/

/-- C4 counterexample: the invariant "due_date null implies alert_level
normal" is not preserved by update.  Create at `now = 0` a task due at
instant 0 (alert level `fatal`), then partially update it setting
`due_date` to null: the stored task now has `due_date = none` and
`alert_level = "fatal" ≠ "normal"`, because `BaseSQLService.update` never
recomputes `alert_level`. -/
theorem C4_null_due_date_counterexample :
    ((updateOp
        (createOp [] { title := "t", task_type := .audiencia, due_date := some ⟨0, true⟩ }
          "u1" 0 "t1").2
        "t1" { due_date := some none } "u1").1.map
      (fun t => (t.due_date, t.alert_level))) = some (none, "fatal") ∧
    ("fatal" : String) ≠ "normal" :=
  ⟨by decide, by decide⟩

/-- C4 (amended): a task *created* with no due date has alert level
`normal`, and every operation except a due-date-nulling update preserves
the invariant vacuously because no update path writes `alert_level` at
all: `applyUpdate` leaves `alert_level` unchanged on every row, so a
partial update that sets `due_date` to null on a task whose alert level
was more urgent leaves the stale level in place rather than restoring
`normal`. -/
theorem C4_alert_normal_frozen :
    (∀ (data : TaskCreate) (u : String) (now : Int) (newId : String),
      data.due_date = none → (createTask data u now newId).alert_level = "normal") ∧
    (∀ (d : TaskUpdate) (t : DBTask), (applyUpdate d t).alert_level = t.alert_level) ∧
    (∀ (s : Store) (id u : String) (d : TaskUpdate),
      (updateOp s id d u).2.map (fun t => t.alert_level) = s.map (fun t => t.alert_level)) := by
  refine ⟨fun data u now newId h => by simp [createTask, h], fun d t => rfl,
          fun s id u d => ?_⟩
  cases hg : getOp s id u with
  | none => simp [updateOp, hg]
  | some t =>
    simp only [updateOp, hg]
    exact replaceFirst_map_eq (ownerMatch id u) (applyUpdate d) (fun t => t.alert_level) (fun x => rfl) s

/-- Witness for C4 (amended): a concrete creation with no due date. -/
theorem C4_alert_normal_frozen_witness :
    (createTask { title := "t", task_type := .peticao } "u1" 5 "t9").alert_level = "normal" :=
  C4_alert_normal_frozen.1 { title := "t", task_type := .peticao } "u1" 5 "t9" rfl

/-! ### C5 -/

/-- C5: `score` is computed once at creation from (task_type, priority),
and no partial update — including one that changes `task_type` or
`priority`, both updatable — recomputes or modifies it: the update
operation leaves the score of every stored row unchanged, and
`applyUpdate` preserves the score field of the updated row itself (no
`TaskUpdate` field maps to `score`). -/
theorem C5_update_never_recomputes_score (s : Store) (id u : String) (d : TaskUpdate)
    (t : DBTask) (data : TaskCreate) (now : Int) (newId : String) :
    (createTask data u now newId).score =
      calculate_score data.task_type.val data.priority.val ∧
    (updateOp s id d u).2.map (fun x => x.score) = s.map (fun x => x.score) ∧
    (applyUpdate d t).score = t.score := by
  refine ⟨rfl, ?_, rfl⟩
  cases hg : getOp s id u with
  | none => simp [updateOp, hg]
  | some t0 =>
    simp only [updateOp, hg]
    exact replaceFirst_map_eq (ownerMatch id u) (applyUpdate d) (fun x => x.score) (fun x => rfl) s

/-! ### C9 -/

/-- C9: `completed_at` and `completed_by` are null at creation;
`complete_task` sets status `concluida`, `completed_at` to the current
time and `completed_by` to the supplied completer id (defaulting to the
owner when none is supplied; by Python `or`-truthiness an empty-string
completer also falls back to the owner, hence the `c ≠ ""` guard); and no
partial update path can clear them — `applyUpdate` preserves both fields
on every row, so once set they stay set. -/
theorem C9_completion_fields :
    (∀ (data : TaskCreate) (u : String) (now : Int) (newId : String),
      (createTask data u now newId).completed_at = none ∧
      (createTask data u now newId).completed_by = none) ∧
    (∀ (s : Store) (tid u : String) (cb : Option String) (now : Int) (t' : DBTask),
      (complete_task s tid u cb now).1 = some t' →
        t'.status = .concluida ∧ t'.completed_at = some now ∧
        (cb = none → t'.completed_by = some u) ∧
        (∀ c, cb = some c → c ≠ "" → t'.completed_by = some c)) ∧
    (∀ (d : TaskUpdate) (t : DBTask),
      (applyUpdate d t).completed_at = t.completed_at ∧
      (applyUpdate d t).completed_by = t.completed_by) ∧
    (∀ (s : Store) (id u : String) (d : TaskUpdate),
      (updateOp s id d u).2.map (fun x => (x.completed_at, x.completed_by)) =
        s.map (fun x => (x.completed_at, x.completed_by))) := by
  refine ⟨fun data u now newId => ⟨rfl, rfl⟩, ?_, fun d t => ⟨rfl, rfl⟩, fun s id u d => ?_⟩
  · intro s tid u cb now t' h
    cases hg : getOp s tid u with
    | none => simp [complete_task, hg] at h
    | some t0 =>
      simp only [complete_task, hg, Option.some.injEq] at h
      subst h
      refine ⟨rfl, rfl, fun hn => by simp [pyOrDefault, hn], fun c hc hne => ?_⟩
      simp [pyOrDefault, hc, hne]
  · cases hg : getOp s id u with
    | none => simp [updateOp, hg]
    | some t0 =>
      simp only [updateOp, hg]
      exact replaceFirst_map_eq (ownerMatch id u) (applyUpdate d) (fun x => (x.completed_at, x.completed_by)) (fun x => rfl) s

/-- Witness for C9: completing a concrete one-task store stamps the
completion fields with the owner and time supplied. -/
theorem C9_completion_fields_witness :
    (complete_task
        [{ id := "t1", user_id := "u1", title := "a", description := none,
           task_type := .peticao, priority := .media, status := .pendente,
           case_id := none, client_id := none, due_date := none,
           completed_at := none, score := 80, completed_by := none,
           alert_level := "normal", tags := [], notes := none }]
        "t1" "u1" none 7).1 =
      some { id := "t1", user_id := "u1", title := "a", description := none,
             task_type := .peticao, priority := .media, status := .concluida,
             case_id := none, client_id := none, due_date := none,
             completed_at := some 7, score := 80, completed_by := some "u1",
             alert_level := "normal", tags := [], notes := none } ∧
    TaskStatus.concluida = .concluida ∧ (some 7 : Option Int) = some 7 ∧
    (some "u1" : Option String) = some "u1" := by
  have h : (complete_task
      [{ id := "t1", user_id := "u1", title := "a", description := none,
         task_type := .peticao, priority := .media, status := .pendente,
         case_id := none, client_id := none, due_date := none,
         completed_at := none, score := 80, completed_by := none,
         alert_level := "normal", tags := [], notes := none }]
      "t1" "u1" none 7).1 =
    some { id := "t1", user_id := "u1", title := "a", description := none,
           task_type := .peticao, priority := .media, status := .concluida,
           case_id := none, client_id := none, due_date := none,
           completed_at := some 7, score := 80, completed_by := some "u1",
           alert_level := "normal", tags := [], notes := none } := by decide
  have hc := (C9_completion_fields.2.1 _ "t1" "u1" none 7 _ h).1
  exact ⟨h, hc, rfl, rfl⟩

/-! ### C10 -/

/-- C10: owner scoping.  First part: when the task addressed by `id` is not
owned by the caller `u` (every stored row with that id has another owner),
`get`, `update`, `delete` and `complete_task` return `none` (`false` for
delete) and leave the table unchanged.  Second part (noninterference): the
result of each of these operations for `u`, and the `u`-projection of the
resulting table, depend only on the `u`-projection of the table — two
tables that differ only in other users' rows are indistinguishable to
`u`. -/
theorem C10_owner_scoping :
    (∀ (s : Store) (id u : String) (d : TaskUpdate) (cb : Option String) (now : Int),
      (∀ t ∈ s, t.id = id → t.user_id ≠ u) →
        getOp s id u = none ∧ updateOp s id d u = (none, s) ∧
        deleteOp s id u = (false, s) ∧ complete_task s id u cb now = (none, s)) ∧
    (∀ (s1 s2 : Store) (id u : String) (d : TaskUpdate) (cb : Option String) (now : Int),
      proj u s1 = proj u s2 →
        getOp s1 id u = getOp s2 id u ∧
        (updateOp s1 id d u).1 = (updateOp s2 id d u).1 ∧
        proj u (updateOp s1 id d u).2 = proj u (updateOp s2 id d u).2 ∧
        (deleteOp s1 id u).1 = (deleteOp s2 id u).1 ∧
        proj u (deleteOp s1 id u).2 = proj u (deleteOp s2 id u).2 ∧
        (complete_task s1 id u cb now).1 = (complete_task s2 id u cb now).1 ∧
        proj u (complete_task s1 id u cb now).2 = proj u (complete_task s2 id u cb now).2) := by
  constructor
  · intro s id u d cb now h
    have hget : getOp s id u = none := by
      refine List.find?_eq_none.mpr (fun x hx hm => ?_)
      simp only [ownerMatch, Bool.and_eq_true, beq_iff_eq] at hm
      exact h x hx hm.1 hm.2
    refine ⟨hget, ?_, ?_, ?_⟩ <;> simp [updateOp, deleteOp, complete_task, hget]
  · intro s1 s2 id u d cb now hp
    have hget : getOp s1 id u = getOp s2 id u := by
      rw [getOp_proj s1, getOp_proj s2, hp]
    refine ⟨hget, ?_, ?_, ?_, ?_, ?_, ?_⟩
    · cases hg : getOp s1 id u with
      | none => simp [updateOp, hg, hget.symm.trans hg]
      | some t => simp [updateOp, hg, hget.symm.trans hg]
    · cases hg : getOp s1 id u with
      | none => simp [updateOp, hg, hget.symm.trans hg, hp]
      | some t =>
        simp only [updateOp, hg, hget.symm.trans hg]
        rw [proj_replaceFirst u id (applyUpdate d) (fun x => rfl) s1,
            proj_replaceFirst u id (applyUpdate d) (fun x => rfl) s2, hp]
    · cases hg : getOp s1 id u with
      | none => simp [deleteOp, hg, hget.symm.trans hg]
      | some t => simp [deleteOp, hg, hget.symm.trans hg]
    · cases hg : getOp s1 id u with
      | none => simp [deleteOp, hg, hget.symm.trans hg, hp]
      | some t =>
        simp only [deleteOp, hg, hget.symm.trans hg]
        rw [proj_eraseP u id s1, proj_eraseP u id s2, hp]
    · cases hg : getOp s1 id u with
      | none => simp [complete_task, hg, hget.symm.trans hg]
      | some t => simp [complete_task, hg, hget.symm.trans hg]
    · cases hg : getOp s1 id u with
      | none => simp [complete_task, hg, hget.symm.trans hg, hp]
      | some t =>
        simp only [complete_task, hg, hget.symm.trans hg]
        rw [proj_replaceFirst_complete u id cb now s1,
            proj_replaceFirst_complete u id cb now s2, hp]

/-- Witness for C10: a store holding only another user's task answers `u2`
with `none`/`false` and stays unchanged, and two stores differing only in
`u9`'s rows are indistinguishable to `u2`. -/
theorem C10_owner_scoping_witness :
    (getOp
        [{ id := "t1", user_id := "u1", title := "a", description := none,
           task_type := .outro, priority := .media, status := .pendente,
           case_id := none, client_id := none, due_date := none,
           completed_at := none, score := 25, completed_by := none,
           alert_level := "normal", tags := [], notes := none }]
        "t1" "u2" = none) ∧
    getOp
        [{ id := "t9", user_id := "u9", title := "z", description := none,
           task_type := .outro, priority := .media, status := .pendente,
           case_id := none, client_id := none, due_date := none,
           completed_at := none, score := 25, completed_by := none,
           alert_level := "normal", tags := [], notes := none }]
        "t1" "u2" = getOp [] "t1" "u2" := by
  constructor
  · exact (C10_owner_scoping.1 _ "t1" "u2" {} none 0 (by decide)).1
  · exact (C10_owner_scoping.2 _ [] "t1" "u2" {} none 0 (by decide)).1

/-! ### Ranking lemmas (shared by C3 and C8) -/

theorem assignRanks_map {β : Type} (g : RankEntry → β)
    (hg : ∀ (e : RankEntry) (n : Nat), g { e with rank := n } = g e) :
    ∀ (i : Nat) (l : List RankEntry), (assignRanks i l).map g = l.map g := by
  intro i l
  induction l generalizing i with
  | nil => rfl
  | cons e es ih => simp [assignRanks, hg, ih]

theorem assignRanks_map_rank (i : Nat) (l : List RankEntry) :
    (assignRanks i l).map (fun e => e.rank) = List.range' i l.length := by
  induction l generalizing i with
  | nil => rfl
  | cons e es ih => simp [assignRanks, List.range', ih]

theorem assignRanks_length (i : Nat) (l : List RankEntry) :
    (assignRanks i l).length = l.length := by
  induction l generalizing i with
  | nil => rfl
  | cons e es ih => simp [assignRanks, ih]

theorem assignRanks_pairwise_total (l : List RankEntry) (i : Nat)
    (h : l.Pairwise scoreRel) :
    (assignRanks i l).Pairwise (fun a b => b.total_score ≤ a.total_score) := by
  have hmap := assignRanks_map (fun e => e.total_score) (fun e n => rfl) i l
  have h' : ((assignRanks i l).map (fun e => e.total_score)).Pairwise
      (fun a b : Int => b ≤ a) := by
    rw [hmap]
    exact List.pairwise_map.mpr h
  exact List.pairwise_map.mp h'

theorem sorted_entries_user_nodup (els : List DBTask) (keys : List String)
    (hk : keys.Nodup) :
    ((assignRanks 1 (List.insertionSort scoreRel (keys.map (entryFor els)))).map
        (fun e => e.user_id)).Nodup := by
  rw [assignRanks_map (fun e => e.user_id) (fun e n => rfl)]
  have h1 : (keys.map (entryFor els)).map (fun e => e.user_id) = keys := by
    rw [List.map_map]
    have : ((fun e : RankEntry => e.user_id) ∘ entryFor els) = id := funext fun k => rfl
    rw [this, List.map_id]
  have h2 := (List.perm_insertionSort scoreRel (keys.map (entryFor els))).map
    (fun e => e.user_id)
  refine h2.symm.nodup ?_
  rw [h1]
  exact hk

theorem ranking_user_nodup (tasks : List DBTask) (sd ed : Option Int) :
    ((get_taskscore_ranking tasks sd ed).map (fun e => e.user_id)).Nodup := by
  simp only [get_taskscore_ranking]
  exact sorted_entries_user_nodup _ _ (List.nodup_dedup _)

theorem sorted_entries_user_mem_keys (els : List DBTask) (keys : List String)
    (e : RankEntry)
    (he : e ∈ assignRanks 1 (List.insertionSort scoreRel (keys.map (entryFor els)))) :
    e.user_id ∈ keys := by
  have h1 : e.user_id ∈ (assignRanks 1
      (List.insertionSort scoreRel (keys.map (entryFor els)))).map
        (fun e => e.user_id) := List.mem_map_of_mem _ he
  rw [assignRanks_map (fun e => e.user_id) (fun e n => rfl)] at h1
  have h2 := (List.perm_insertionSort scoreRel (keys.map (entryFor els))).map
    (fun e => e.user_id)
  have h3 := h2.mem_iff.mp h1
  rw [List.map_map] at h3
  simpa [entryFor] using h3

theorem find?_user_eq_of_mem (uid : String) (e : RankEntry) (hu : e.user_id = uid) :
    ∀ (l : List RankEntry), ((l.map (fun x => x.user_id)).Nodup) → e ∈ l →
      l.find? (fun x => x.user_id == uid) = some e := by
  intro l
  induction l with
  | nil => intro _ he; exact absurd he (List.not_mem_nil e)
  | cons x xs ih =>
    intro hn he
    rw [List.map_cons, List.nodup_cons] at hn
    rcases List.mem_cons.mp he with rfl | hmem
    · simp [List.find?, hu]
    · have hx : (x.user_id == uid) = false := by
        refine beq_eq_false_iff_ne.mpr (fun hxe => hn.1 ?_)
        rw [hxe, ← hu]
        exact List.mem_map_of_mem _ hmem
      simp only [List.find?, hx]
      exact ih hn.2 hmem

/-! ### C3 -/

/-- C3: every ranking result is sorted non-increasing by `total_score`, and
the `rank` fields are exactly 1, 2, ..., n in the order of the returned
list (unique consecutive integers starting at 1 assigned in sorted
order). -/
theorem C3_ranking_sorted_and_ranked (tasks : List DBTask) (sd ed : Option Int) :
    (get_taskscore_ranking tasks sd ed).Pairwise
      (fun a b => b.total_score ≤ a.total_score) ∧
    (get_taskscore_ranking tasks sd ed).map (fun e => e.rank) =
      List.range' 1 (get_taskscore_ranking tasks sd ed).length := by
  constructor
  · exact assignRanks_pairwise_total _ 1
      (List.sorted_insertionSort scoreRel _)
  · rw [get_taskscore_ranking]
    rw [assignRanks_map_rank, assignRanks_length]

/-! ### C8 -/

/-- C8: the own-score endpoint returns the requesting user's ranking entry
when one exists (entries are keyed by distinct users, so it is unique),
and otherwise — never an error — a zero-valued placeholder with
`total_score = 0`, `tasks_completed = 0`, empty per-type breakdown and
`rank = len(ranking) + 1`; moreover a user with no counted completion in
the window has no entry in the general ranking listing. -/
theorem C8_my_score_fallback (tasks : List DBTask) (uid : String) (sd ed : Option Int) :
    (∀ e ∈ get_taskscore_ranking tasks sd ed, e.user_id = uid →
        get_my_taskscore tasks uid sd ed = e) ∧
    ((∀ e ∈ get_taskscore_ranking tasks sd ed, e.user_id ≠ uid) →
        get_my_taskscore tasks uid sd ed =
          { user_id := uid, total_score := 0, tasks_completed := 0,
            tasks_by_type := [],
            rank := (get_taskscore_ranking tasks sd ed).length + 1 }) ∧
    ((∀ t ∈ tasks, countsForRanking sd ed t = true → t.completed_by ≠ some uid) →
        ∀ e ∈ get_taskscore_ranking tasks sd ed, e.user_id ≠ uid) := by
  refine ⟨fun e he hu => ?_, fun h => ?_, fun h e he hu => ?_⟩
  · have hf := find?_user_eq_of_mem uid e hu _ (ranking_user_nodup tasks sd ed) he
    simp [get_my_taskscore, hf]
  · have hf : (get_taskscore_ranking tasks sd ed).find?
        (fun x => x.user_id == uid) = none := by
      refine List.find?_eq_none.mpr (fun x hx hbeq => ?_)
      exact h x hx (beq_iff_eq.mp hbeq)
    simp [get_my_taskscore, hf]
  · have hmem : e.user_id ∈ ((tasks.filter (countsForRanking sd ed)).filterMap
        (fun t => t.completed_by)).dedup :=
      sorted_entries_user_mem_keys (tasks.filter (countsForRanking sd ed)) _ e he
    rw [hu, List.mem_dedup, List.mem_filterMap] at hmem
    obtain ⟨t, htf, hcb⟩ := hmem
    rw [List.mem_filter] at htf
    exact h t htf.1 htf.2 hcb

/-- Witness for C8: with no tasks at all the ranking is empty and the
own-score lookup returns the zero-valued placeholder with rank 1. -/
theorem C8_my_score_fallback_witness :
    get_my_taskscore [] "u1" none none =
      { user_id := "u1", total_score := 0, tasks_completed := 0,
        tasks_by_type := [], rank := 1 } :=
  ((C8_my_score_fallback [] "u1" none none).2.1 (by decide)).trans (by decide)

end CrmJuAi
